import Mathlib

/-!
Verification of the configuration core of the analytics dashboard backend.

The development shallowly embeds the two configuration units of the
repository:

* `ClientConfigData` / `ClientConfig` — the per-client settings class of
  `server-config.py` (client identity, table ids, enabled sources) together
  with its helper methods `is_enabled`, `get_table_id`, `get_base_id`,
  `get_fresh_tables` and `get_client_config_for_frontend`.
* `ConfigProfile` and the profile values of `config.py` (`baseConfig`,
  `DevelopmentConfig`, `ProductionConfig`, `TestConfig`), the environment
  factory `get_config`, the active table mapping `Config.FRESH_TABLES`
  (parameterised by whether the client-configuration collaborator loaded,
  since module import is an environmental effect), and the lookup helpers
  `Config.get_table_config` / `Config.get_all_table_ids`.

Python dictionaries are embedded as association lists in insertion order
(`List (String × _)`, first binding wins, matching the duplicate-free
concrete data).  A Python value of type `Optional[str]` is `Option String`;
`dict.get` is association-list lookup flattened with `Option.join`, so a
missing key and an explicit `None` value both read back as `none`, exactly
as in Python.
-/

/-- One entry of the FRESH_TABLES mapping, as built in
`ClientConfig.get_fresh_tables` and in the fallback literal of `config.py`.
The `id` field carries the raw dictionary value (`Optional[str]`). -/
structure FreshTable where
  id : Option String
  name : String
  date_field : String
  sort_direction : String
deriving DecidableEq, Repr

/-- The static data of the `ClientConfig` class in `server-config.py`:
client identity, Airtable base id, the table-id dictionary and the
enabled/disabled source lists.  The helper classmethods below take this
record as their `cls` argument. -/
structure ClientConfigData where
  CLIENT_NAME : String
  BUSINESS_NAME : String
  AIRTABLE_BASE_ID : String
  TABLE_IDS : List (String × Option String)
  ENABLED_SOURCES : List String
  DISABLED_SOURCES : List String
deriving DecidableEq, Repr

/-- `cls.TABLE_IDS.get(s)` in Python: association-list lookup with a
`None` value and a missing key both flattened to `none`. -/
def tableIdsGet (cls : ClientConfigData) (s : String) : Option String :=
  (cls.TABLE_IDS.lookup s).join

/-- `ClientConfig.is_enabled` (src/server-config.py, lines 102-108):
membership in ENABLED_SOURCES, and the table id is not `None`, not the
string `'null'`, and not the empty string. -/
def is_enabled (cls : ClientConfigData) (s : String) : Bool :=
  cls.ENABLED_SOURCES.contains s &&
  (tableIdsGet cls s).isSome &&
  (tableIdsGet cls s != some "null") &&
  (tableIdsGet cls s != some "")

/-- Python truthiness of an `Optional[str]`: `None` and `''` are falsy. -/
def pyTruthy : Option String → Bool
  | none => false
  | some t => t != ""

/-- `ClientConfig.get_table_id` (src/server-config.py, lines 110-114):
`table_id if table_id and table_id != 'null' and table_id != '' else None`. -/
def get_table_id (cls : ClientConfigData) (s : String) : Option String :=
  let table_id := tableIdsGet cls s
  if pyTruthy table_id && table_id != some "null" && table_id != some "" then
    table_id
  else
    none

/-- `ClientConfig.get_base_id` (src/server-config.py, lines 116-119). -/
def get_base_id (cls : ClientConfigData) : String :=
  cls.AIRTABLE_BASE_ID

/-- `ClientConfig.get_fresh_tables` (src/server-config.py, lines 38-99):
the dictionary built by the seven guarded insertions, in insertion order.
Inside each guarded branch the source indexes `cls.TABLE_IDS[key]`
directly; the guard guarantees the key is bound to a non-`None` value
there, so the flattened lookup `tableIdsGet` agrees with the raw index. -/
def get_fresh_tables (cls : ClientConfigData) : List (String × FreshTable) :=
  (if is_enabled cls "ghl" then
    [("ghl", { id := tableIdsGet cls "ghl", name := cls.CLIENT_NAME ++ " GHL",
               date_field := "Date Created", sort_direction := "desc" })]
   else []) ++
  (if is_enabled cls "pos" then
    [("pos", { id := tableIdsGet cls "pos", name := cls.CLIENT_NAME ++ " POS",
               date_field := "Created", sort_direction := "desc" })]
   else []) ++
  (if is_enabled cls "google_ads" then
    [("google_ads", { id := tableIdsGet cls "google_ads",
                      name := cls.CLIENT_NAME ++ " Google Ads",
                      date_field := "Date", sort_direction := "desc" })]
   else []) ++
  (if is_enabled cls "meta_ads" then
    [("meta_ads", { id := tableIdsGet cls "meta_ads",
                    name := cls.CLIENT_NAME ++ " Meta Ads",
                    date_field := "Reporting ends", sort_direction := "desc" })]
   else []) ++
  (if is_enabled cls "meta_ads_summary" then
    [("meta_ads_summary", { id := tableIdsGet cls "meta_ads_summary",
                            name := cls.CLIENT_NAME ++ " Meta Ads Summary",
                            date_field := "Reporting ends", sort_direction := "desc" })]
   else []) ++
  (if is_enabled cls "meta_ads_simplified" then
    [("meta_ads_simplified", { id := tableIdsGet cls "meta_ads_simplified",
                               name := cls.CLIENT_NAME ++ " Meta Ads Simplified",
                               date_field := "period", sort_direction := "desc" })]
   else []) ++
  (if is_enabled cls "meta_ads_performance" then
    [("meta_ads_performance", { id := tableIdsGet cls "meta_ads_performance",
                                name := cls.CLIENT_NAME ++ " Meta Ads Performance",
                                date_field := "Date", sort_direction := "desc" })]
   else [])

/-- The concrete `ClientConfig` class of src/server-config.py
(lines 16-35): Cellular Zone, base `app9JgRBZC2GNlaKM`, ghl and
google_ads configured and enabled, all other table ids `None`. -/
def ClientConfig : ClientConfigData :=
  { CLIENT_NAME := "Cellular Zone"
    BUSINESS_NAME := "Cellular Zone"
    AIRTABLE_BASE_ID := "app9JgRBZC2GNlaKM"
    TABLE_IDS :=
      [("ghl", some "tbl0Er1mMwZO1Pvfj"),
       ("google_ads", some "tblIhvVihVoghHfVa"),
       ("pos", none),
       ("meta_ads", none),
       ("meta_ads_simplified", none),
       ("meta_ads_summary", none),
       ("meta_ads_performance", none)]
    ENABLED_SOURCES := ["ghl", "google_ads"]
    DISABLED_SOURCES := [] }

/-- The fixed enumerated set of source keys (spec §3). -/
def sourceKeys : List String :=
  ["ghl", "pos", "google_ads", "meta_ads", "meta_ads_summary",
   "meta_ads_simplified", "meta_ads_performance"]

/-- Spec §4.1 table: the fixed per-source-key display-name suffix. -/
def fixedSuffix : String → String
  | "ghl" => "GHL"
  | "pos" => "POS"
  | "google_ads" => "Google Ads"
  | "meta_ads" => "Meta Ads"
  | "meta_ads_summary" => "Meta Ads Summary"
  | "meta_ads_simplified" => "Meta Ads Simplified"
  | "meta_ads_performance" => "Meta Ads Performance"
  | _ => ""

/-- Spec §4.1 table: the fixed per-source-key date field. -/
def fixedDateField : String → String
  | "ghl" => "Date Created"
  | "pos" => "Created"
  | "google_ads" => "Date"
  | "meta_ads" => "Reporting ends"
  | "meta_ads_summary" => "Reporting ends"
  | "meta_ads_simplified" => "period"
  | "meta_ads_performance" => "Date"
  | _ => ""

/-- C1: `is_enabled(s)` holds iff `s` is an enabled source and its
configured table id is present, not empty and not the literal `"null"`.
Proved for every client record and every key, so in particular for the
concrete `ClientConfig`. -/
theorem C1_is_enabled_iff (cls : ClientConfigData) (s : String) :
    is_enabled cls s = true ↔
      s ∈ cls.ENABLED_SOURCES ∧
        ∃ t, tableIdsGet cls s = some t ∧ t ≠ "" ∧ t ≠ "null" := by
  unfold is_enabled
  cases h : tableIdsGet cls s with
  | none => simp [h]
  | some t =>
    simp [h, List.contains, List.elem_iff, and_assoc, and_comm]

/-- Looking up a key skips a guarded singleton segment with a different key. -/
theorem lookup_seg_skip {β : Type} (s k : String) (h : (s == k) = false)
    (e : β) (c : Prop) [Decidable c] (l : List (String × β)) :
    ((if c then [(k, e)] else []) ++ l).lookup s = l.lookup s := by
  split <;> simp [List.lookup_cons, h]

/-- Looking up a key in a final guarded singleton segment with a different
key yields nothing. -/
theorem lookup_seg_skip_last {β : Type} (s k : String) (h : (s == k) = false)
    (e : β) (c : Prop) [Decidable c] :
    ((if c then [(k, e)] else []) : List (String × β)).lookup s = none := by
  split <;> simp [List.lookup_cons, h]

/-- Characterisation of `get_fresh_tables` at each of the seven fixed
source keys: the key is bound exactly when `is_enabled` holds, and then to
the entry built from the client name, the configured table id, and the
fixed per-key metadata of spec §4.1. -/
theorem lookup_get_fresh_tables (cls : ClientConfigData) (s : String)
    (hs : s ∈ sourceKeys) :
    (get_fresh_tables cls).lookup s =
      if is_enabled cls s then
        some { id := tableIdsGet cls s,
               name := cls.CLIENT_NAME ++ " " ++ fixedSuffix s,
               date_field := fixedDateField s,
               sort_direction := "desc" }
      else none := by
  simp only [sourceKeys, List.mem_cons, List.not_mem_nil, or_false] at hs
  rcases hs with rfl | rfl | rfl | rfl | rfl | rfl | rfl
  · simp only [get_fresh_tables, List.append_assoc]
    by_cases h : is_enabled cls "ghl"
    · simp [h, fixedSuffix, fixedDateField, String.append_assoc]
    · simp only [h, if_false, Bool.false_eq_true, List.nil_append, List.append_assoc]
      rw [lookup_seg_skip "ghl" "pos" (by decide),
          lookup_seg_skip "ghl" "google_ads" (by decide),
          lookup_seg_skip "ghl" "meta_ads" (by decide),
          lookup_seg_skip "ghl" "meta_ads_summary" (by decide),
          lookup_seg_skip "ghl" "meta_ads_simplified" (by decide),
          lookup_seg_skip_last "ghl" "meta_ads_performance" (by decide)]
  · simp only [get_fresh_tables, List.append_assoc]
    rw [lookup_seg_skip "pos" "ghl" (by decide)]
    by_cases h : is_enabled cls "pos"
    · simp [h, fixedSuffix, fixedDateField, String.append_assoc]
    · simp only [h, if_false, Bool.false_eq_true, List.nil_append, List.append_assoc]
      rw [lookup_seg_skip "pos" "google_ads" (by decide),
          lookup_seg_skip "pos" "meta_ads" (by decide),
          lookup_seg_skip "pos" "meta_ads_summary" (by decide),
          lookup_seg_skip "pos" "meta_ads_simplified" (by decide),
          lookup_seg_skip_last "pos" "meta_ads_performance" (by decide)]
  · simp only [get_fresh_tables, List.append_assoc]
    rw [lookup_seg_skip "google_ads" "ghl" (by decide),
        lookup_seg_skip "google_ads" "pos" (by decide)]
    by_cases h : is_enabled cls "google_ads"
    · simp [h, fixedSuffix, fixedDateField, String.append_assoc]
    · simp only [h, if_false, Bool.false_eq_true, List.nil_append, List.append_assoc]
      rw [lookup_seg_skip "google_ads" "meta_ads" (by decide),
          lookup_seg_skip "google_ads" "meta_ads_summary" (by decide),
          lookup_seg_skip "google_ads" "meta_ads_simplified" (by decide),
          lookup_seg_skip_last "google_ads" "meta_ads_performance" (by decide)]
  · simp only [get_fresh_tables, List.append_assoc]
    rw [lookup_seg_skip "meta_ads" "ghl" (by decide),
        lookup_seg_skip "meta_ads" "pos" (by decide),
        lookup_seg_skip "meta_ads" "google_ads" (by decide)]
    by_cases h : is_enabled cls "meta_ads"
    · simp [h, fixedSuffix, fixedDateField, String.append_assoc]
    · simp only [h, if_false, Bool.false_eq_true, List.nil_append, List.append_assoc]
      rw [lookup_seg_skip "meta_ads" "meta_ads_summary" (by decide),
          lookup_seg_skip "meta_ads" "meta_ads_simplified" (by decide),
          lookup_seg_skip_last "meta_ads" "meta_ads_performance" (by decide)]
  · simp only [get_fresh_tables, List.append_assoc]
    rw [lookup_seg_skip "meta_ads_summary" "ghl" (by decide),
        lookup_seg_skip "meta_ads_summary" "pos" (by decide),
        lookup_seg_skip "meta_ads_summary" "google_ads" (by decide),
        lookup_seg_skip "meta_ads_summary" "meta_ads" (by decide)]
    by_cases h : is_enabled cls "meta_ads_summary"
    · simp [h, fixedSuffix, fixedDateField, String.append_assoc]
    · simp only [h, if_false, Bool.false_eq_true, List.nil_append, List.append_assoc]
      rw [lookup_seg_skip "meta_ads_summary" "meta_ads_simplified" (by decide),
          lookup_seg_skip_last "meta_ads_summary" "meta_ads_performance" (by decide)]
  · simp only [get_fresh_tables, List.append_assoc]
    rw [lookup_seg_skip "meta_ads_simplified" "ghl" (by decide),
        lookup_seg_skip "meta_ads_simplified" "pos" (by decide),
        lookup_seg_skip "meta_ads_simplified" "google_ads" (by decide),
        lookup_seg_skip "meta_ads_simplified" "meta_ads" (by decide),
        lookup_seg_skip "meta_ads_simplified" "meta_ads_summary" (by decide)]
    by_cases h : is_enabled cls "meta_ads_simplified"
    · simp [h, fixedSuffix, fixedDateField, String.append_assoc]
    · simp only [h, if_false, Bool.false_eq_true, List.nil_append, List.append_assoc]
      rw [lookup_seg_skip_last "meta_ads_simplified" "meta_ads_performance" (by decide)]
  · simp only [get_fresh_tables, List.append_assoc]
    rw [lookup_seg_skip "meta_ads_performance" "ghl" (by decide),
        lookup_seg_skip "meta_ads_performance" "pos" (by decide),
        lookup_seg_skip "meta_ads_performance" "google_ads" (by decide),
        lookup_seg_skip "meta_ads_performance" "meta_ads" (by decide),
        lookup_seg_skip "meta_ads_performance" "meta_ads_summary" (by decide),
        lookup_seg_skip "meta_ads_performance" "meta_ads_simplified" (by decide)]
    by_cases h : is_enabled cls "meta_ads_performance"
    · simp [h, fixedSuffix, fixedDateField, String.append_assoc]
    · simp [h]

/-- Python `s.lower()`, embedded pointwise on the character list (the
client name and environment values are ASCII, where `str.lower` is exactly
per-character lowercasing). -/
def pyLower (s : String) : String :=
  ⟨s.data.map Char.toLower⟩

/-- Python `s.replace(a, b)` for single-character `a`, `b`: substring
replacement with a one-character pattern is exactly the per-character
substitution map. -/
def pyReplaceChar (a b : Char) (s : String) : String :=
  ⟨s.data.map fun c => if c = a then b else c⟩

/-- `client_info` group of `get_client_config_for_frontend`. -/
structure ClientInfo where
  client_id : String
  business_name : String
deriving DecidableEq, Repr

/-- `data_sources` group of `get_client_config_for_frontend`. -/
structure DataSourcesInfo where
  enabled_sources : List String
  disabled_sources : List String
deriving DecidableEq, Repr

/-- `tab_configuration` group of `get_client_config_for_frontend`. -/
structure TabConfiguration where
  enabled_tabs : List String
  default_tab : String
deriving DecidableEq, Repr

/-- `airtable_configuration` group of `get_client_config_for_frontend`. -/
structure AirtableConfiguration where
  base_id : String
deriving DecidableEq, Repr

/-- The nested record returned by `get_client_config_for_frontend`. -/
structure FrontendConfig where
  client_info : ClientInfo
  data_sources : DataSourcesInfo
  tab_configuration : TabConfiguration
  airtable_configuration : AirtableConfiguration
deriving DecidableEq, Repr

/-- `ClientConfig.get_client_config_for_frontend`
(src/server-config.py, lines 121-140). -/
def get_client_config_for_frontend (cls : ClientConfigData) : FrontendConfig :=
  { client_info :=
      { client_id := pyReplaceChar ' ' '_' (pyLower cls.CLIENT_NAME)
        business_name := cls.BUSINESS_NAME }
    data_sources :=
      { enabled_sources := cls.ENABLED_SOURCES
        disabled_sources := cls.DISABLED_SOURCES }
    tab_configuration :=
      { enabled_tabs := ["overview"] ++ cls.ENABLED_SOURCES
        default_tab := "overview" }
    airtable_configuration :=
      { base_id := cls.AIRTABLE_BASE_ID } }

/-- Spec §4.1 description of raw table-id retrieval: the configured id
unless it is absent, empty, or the literal string `"null"`; it depends on
the table-id dictionary only. -/
def rawRetrievalSpec (ids : List (String × Option String)) (s : String) :
    Option String :=
  match (ids.lookup s).join with
  | none => none
  | some t => if t = "" ∨ t = "null" then none else some t

/-- C2: at each of the seven fixed source keys, `get_fresh_tables` binds
the key exactly when `is_enabled` holds, and then to an entry whose name
is the client name, a space and the fixed per-key suffix, whose id is the
configured table id, and whose date field and sort direction are the fixed
per-key values (sort direction always `"desc"`).  Proved for every client
record, hence for the concrete `ClientConfig`. -/
theorem C2_fresh_tables_entries (cls : ClientConfigData) (s : String)
    (hs : s ∈ sourceKeys) :
    ((get_fresh_tables cls).lookup s).isSome = is_enabled cls s ∧
    ∀ t, (get_fresh_tables cls).lookup s = some t →
      t.name = cls.CLIENT_NAME ++ " " ++ fixedSuffix s ∧
      t.id = tableIdsGet cls s ∧
      t.date_field = fixedDateField s ∧
      t.sort_direction = "desc" := by
  rw [lookup_get_fresh_tables cls s hs]
  by_cases h : is_enabled cls s <;> simp [h]

/-- C2 witness: the characterisation applied to the concrete client at the
source key `"ghl"`, which is enabled there. -/
theorem C2_fresh_tables_entries_witness :
    ((get_fresh_tables ClientConfig).lookup "ghl").isSome =
        is_enabled ClientConfig "ghl" ∧
    ∀ t, (get_fresh_tables ClientConfig).lookup "ghl" = some t →
      t.name = ClientConfig.CLIENT_NAME ++ " " ++ fixedSuffix "ghl" ∧
      t.id = tableIdsGet ClientConfig "ghl" ∧
      t.date_field = fixedDateField "ghl" ∧
      t.sort_direction = "desc" :=
  C2_fresh_tables_entries ClientConfig "ghl" (by decide)

/-- C8: `get_table_id` returns the configured table id unless it is
absent, empty or the literal `"null"` (then `none`), and its value depends
only on the table-id dictionary, not on the enabled-sources list. -/
theorem C8_get_table_id_raw (cls : ClientConfigData) (s : String) :
    get_table_id cls s = rawRetrievalSpec cls.TABLE_IDS s ∧
    ∀ cls' : ClientConfigData, cls'.TABLE_IDS = cls.TABLE_IDS →
      get_table_id cls' s = get_table_id cls s := by
  constructor
  · have key : rawRetrievalSpec cls.TABLE_IDS s =
        (match tableIdsGet cls s with
         | none => none
         | some t => if t = "" ∨ t = "null" then none else some t) := rfl
    rw [key]
    cases ht : tableIdsGet cls s with
    | none => simp [get_table_id, pyTruthy, ht]
    | some t =>
      by_cases he : t = ""
      · simp [get_table_id, pyTruthy, ht, he]
      · by_cases hn : t = "null"
        · simp [get_table_id, pyTruthy, ht, he, hn]
        · simp [get_table_id, pyTruthy, ht, he, hn]
  · intro cls' hids
    simp [get_table_id, tableIdsGet, hids]

/-- C8 witness: at the key `"pos"` with a second client record that also
enables `"pos"` but has the same table ids, `get_table_id` agrees (both
`none`), and at the concrete client it matches the raw-retrieval
description. -/
theorem C8_get_table_id_raw_witness :
    get_table_id
        { ClientConfig with ENABLED_SOURCES := ["ghl", "google_ads", "pos"] }
        "pos" =
      get_table_id ClientConfig "pos" :=
  (C8_get_table_id_raw ClientConfig "pos").2
    { ClientConfig with ENABLED_SOURCES := ["ghl", "google_ads", "pos"] } rfl

/-- C10: every enabled source key carries a valid table id: if
`is_enabled` holds at a fixed source key then the configured id is a
string `t` that is neither empty nor `"null"`, `get_table_id` returns it,
and the derived mapping binds the key to an entry whose id field is
exactly that id. -/
theorem C10_enabled_id_coherence (cls : ClientConfigData) (s : String)
    (hs : s ∈ sourceKeys) (h : is_enabled cls s = true) :
    ∃ t, tableIdsGet cls s = some t ∧ t ≠ "" ∧ t ≠ "null" ∧
      get_table_id cls s = some t ∧
      ∃ e, (get_fresh_tables cls).lookup s = some e ∧ e.id = some t := by
  cases ht : tableIdsGet cls s with
  | none =>
    exfalso
    unfold is_enabled at h
    rw [ht] at h
    simp at h
  | some t =>
    have h' := h
    unfold is_enabled at h'
    rw [ht] at h'
    simp only [Bool.and_eq_true, bne_iff_ne, ne_eq, Option.isSome_some] at h'
    obtain ⟨⟨⟨-, -⟩, hnull⟩, hempty⟩ := h'
    have hnull' : t ≠ "null" := fun hc => hnull (by rw [hc])
    have hempty' : t ≠ "" := fun hc => hempty (by rw [hc])
    refine ⟨t, rfl, hempty', hnull', ?_, ?_⟩
    · simp [get_table_id, pyTruthy, ht, hempty', hnull']
    · rw [lookup_get_fresh_tables cls s hs, if_pos h]
      exact ⟨_, rfl, by simp [ht]⟩

/-- C10 witness: the coherence applied to the concrete client at the
enabled source key `"google_ads"`. -/
theorem C10_enabled_id_coherence_witness :
    ∃ t, tableIdsGet ClientConfig "google_ads" = some t ∧
      t ≠ "" ∧ t ≠ "null" ∧
      get_table_id ClientConfig "google_ads" = some t ∧
      ∃ e, (get_fresh_tables ClientConfig).lookup "google_ads" = some e ∧
        e.id = some t :=
  C10_enabled_id_coherence ClientConfig "google_ads" (by decide) (by decide)

/-- The attribute bundle of one configuration profile of src/config.py
(the Base `Config` class and its three subclasses).  Base does not define
`DEBUG`, so the field is an `Option Bool` that is `none` on Base. -/
structure ConfigProfile where
  DEBUG : Option Bool
  HOST : String
  PORT : Nat
  CLAUDE_API_TIMEOUT : Nat
  AIRTABLE_API_TIMEOUT : Nat
  MAX_RECORDS_PER_REQUEST : Nat
  MAX_TOTAL_RECORDS : Nat
  MAX_PAGINATION_PAGES : Nat
  LOG_LEVEL : String
  LOG_FORMAT : String
  LOG_DATE_FORMAT : String
  LOG_FILE_MAX_BYTES : Nat
  LOG_BACKUP_COUNT : Nat
  CORS_ORIGINS : List String
deriving DecidableEq, Repr

namespace Config

/-- The Base `Config` class attributes (src/config.py, lines 8-36). -/
def baseConfig : ConfigProfile :=
  { DEBUG := none
    HOST := "127.0.0.1"
    PORT := 8000
    CLAUDE_API_TIMEOUT := 30
    AIRTABLE_API_TIMEOUT := 15
    MAX_RECORDS_PER_REQUEST := 100
    MAX_TOTAL_RECORDS := 10000
    MAX_PAGINATION_PAGES := 50
    LOG_LEVEL := "INFO"
    LOG_FORMAT := "%(asctime)s | %(levelname)-8s | %(name)s | %(message)s"
    LOG_DATE_FORMAT := "%Y-%m-%d %H:%M:%S"
    LOG_FILE_MAX_BYTES := 10 * 1024 * 1024
    LOG_BACKUP_COUNT := 5
    CORS_ORIGINS :=
      ["http://localhost:3000", "http://localhost:8000",
       "http://127.0.0.1:8000"] }

/-- `DevelopmentConfig` (src/config.py, lines 112-118): overrides DEBUG,
LOG_LEVEL and LOG_FORMAT on top of Base. -/
def DevelopmentConfig : ConfigProfile :=
  { baseConfig with
    DEBUG := some true
    LOG_LEVEL := "DEBUG"
    LOG_FORMAT :=
      "%(asctime)s | %(levelname)-8s | %(name)-15s | %(funcName)-20s | %(message)s" }

/-- `ProductionConfig` (src/config.py, lines 120-129): overrides DEBUG,
LOG_LEVEL, MAX_TOTAL_RECORDS and CORS_ORIGINS on top of Base. -/
def ProductionConfig : ConfigProfile :=
  { baseConfig with
    DEBUG := some false
    LOG_LEVEL := "INFO"
    MAX_TOTAL_RECORDS := 5000
    CORS_ORIGINS := ["http://localhost:8000", "http://127.0.0.1:8000"] }

/-- `TestConfig` (src/config.py, lines 131-138): overrides DEBUG,
LOG_LEVEL, MAX_TOTAL_RECORDS and MAX_PAGINATION_PAGES on top of Base. -/
def TestConfig : ConfigProfile :=
  { baseConfig with
    DEBUG := some true
    LOG_LEVEL := "WARNING"
    MAX_TOTAL_RECORDS := 100
    MAX_PAGINATION_PAGES := 5 }

/-- `get_config` (src/config.py, lines 141-153): the environment factory.
The single environment read `os.getenv('FLASK_ENV', 'production')` is
passed in as the optional argument; the function itself is pure and
total. -/
def get_config (flaskEnv : Option String) : ConfigProfile :=
  let env := pyLower (flaskEnv.getD "production")
  if env = "development" then DevelopmentConfig
  else if env = "testing" then TestConfig
  else ProductionConfig

/-- The hardcoded placeholder mapping of src/config.py (lines 44-82),
substituted for `FRESH_TABLES` when importing the client configuration
fails, in its source order. -/
def fallbackFreshTables : List (String × FreshTable) :=
  [("ghl",
    { id := some "CLIENT_GHL_TABLE_ID", name := "CLIENT_NAME GHL",
      date_field := "Date Created", sort_direction := "desc" }),
   ("pos",
    { id := some "CLIENT_POS_TABLE_ID", name := "CLIENT_NAME POS",
      date_field := "Created", sort_direction := "desc" }),
   ("meta_ads",
    { id := some "CLIENT_META_ADS_TABLE_ID", name := "CLIENT_NAME Meta Ads",
      date_field := "Reporting ends", sort_direction := "desc" }),
   ("meta_ads_summary",
    { id := some "CLIENT_META_ADS_SUMMARY_TABLE_ID",
      name := "CLIENT_NAME Meta Ads Summary",
      date_field := "Reporting ends", sort_direction := "desc" }),
   ("meta_ads_simplified",
    { id := some "CLIENT_META_ADS_SIMPLIFIED_TABLE_ID",
      name := "CLIENT_NAME Meta Ads Simplified",
      date_field := "period", sort_direction := "desc" }),
   ("google_ads",
    { id := some "CLIENT_GOOGLE_ADS_TABLE_ID",
      name := "CLIENT_NAME Google Ads",
      date_field := "Date", sort_direction := "desc" })]

/-- `Config.FRESH_TABLES` (src/config.py, lines 40-82): the derived
mapping of the client configuration when that collaborator loads, else
the placeholder mapping.  Whether the import succeeds is an environmental
condition, passed in as `clientLoaded`; both branches are total, so the
substitution never raises. -/
def FRESH_TABLES (clientLoaded : Bool) : List (String × FreshTable) :=
  if clientLoaded then get_fresh_tables ClientConfig else fallbackFreshTables

/-- `Config.LEGACY_TABLES` (src/config.py, lines 86-88): permanently
empty. -/
def LEGACY_TABLES : List (String × FreshTable) := []

/-- The record returned by `Config.get_table_config`: the matched entry's
fields merged with the owning source key (`type`) and the legacy flag. -/
structure TableConfigResult where
  id : Option String
  name : String
  date_field : String
  sort_direction : String
  type : String
  is_legacy : Bool
deriving DecidableEq, Repr

/-- `Config.get_table_config` (src/config.py, lines 90-104): first entry
of the active mapping whose id equals the argument, merged with its
source key and `is_legacy = False`; `None` when no entry matches.  The
legacy branch of the source is eliminated (empty mapping, lookup
removed). -/
def get_table_config (tables : List (String × FreshTable))
    (table_id : String) : Option TableConfigResult :=
  match tables.find? (fun p => p.2.id == some table_id) with
  | some p =>
    some { id := p.2.id, name := p.2.name, date_field := p.2.date_field,
           sort_direction := p.2.sort_direction, type := p.1,
           is_legacy := false }
  | none => none

/-- `Config.get_all_table_ids` (src/config.py, lines 106-110): the id of
every entry of the active mapping, in mapping order. -/
def get_all_table_ids (tables : List (String × FreshTable)) :
    List (Option String) :=
  tables.map (fun p => p.2.id)

end Config

/-- C3: when the client-configuration collaborator cannot be loaded the
active mapping is the fixed placeholder: exactly the six listed source
keys in source order, each bound to its literal template id and template
display name, with the same per-key date field as the derived mapping and
descending sort direction.  Both branches of `Config.FRESH_TABLES` are
total functions, so the substitution cannot raise. -/
theorem C3_fallback_placeholder :
    (Config.FRESH_TABLES false).map Prod.fst =
      ["ghl", "pos", "meta_ads", "meta_ads_summary", "meta_ads_simplified",
       "google_ads"] ∧
    (Config.FRESH_TABLES false).lookup "ghl" =
      some { id := some "CLIENT_GHL_TABLE_ID", name := "CLIENT_NAME GHL",
             date_field := "Date Created", sort_direction := "desc" } ∧
    (Config.FRESH_TABLES false).lookup "pos" =
      some { id := some "CLIENT_POS_TABLE_ID", name := "CLIENT_NAME POS",
             date_field := "Created", sort_direction := "desc" } ∧
    (Config.FRESH_TABLES false).lookup "meta_ads" =
      some { id := some "CLIENT_META_ADS_TABLE_ID",
             name := "CLIENT_NAME Meta Ads",
             date_field := "Reporting ends", sort_direction := "desc" } ∧
    (Config.FRESH_TABLES false).lookup "meta_ads_summary" =
      some { id := some "CLIENT_META_ADS_SUMMARY_TABLE_ID",
             name := "CLIENT_NAME Meta Ads Summary",
             date_field := "Reporting ends", sort_direction := "desc" } ∧
    (Config.FRESH_TABLES false).lookup "meta_ads_simplified" =
      some { id := some "CLIENT_META_ADS_SIMPLIFIED_TABLE_ID",
             name := "CLIENT_NAME Meta Ads Simplified",
             date_field := "period", sort_direction := "desc" } ∧
    (Config.FRESH_TABLES false).lookup "google_ads" =
      some { id := some "CLIENT_GOOGLE_ADS_TABLE_ID",
             name := "CLIENT_NAME Google Ads",
             date_field := "Date", sort_direction := "desc" } ∧
    (Config.FRESH_TABLES false).all
      (fun p => p.2.sort_direction == "desc" &&
                p.2.date_field == fixedDateField p.1) = true := by
  decide

/-- C4: the environment factory is a pure total function of the (lowered)
environment string: `"development"` selects the Development profile,
`"testing"` the Testing profile, anything else — including the absent
variable, which defaults to `"production"` — the Production profile; in
particular `none`, `"production"` and `"PRODUCTION"` all yield the
Production profile. -/
theorem C4_resolve_profile :
    (∀ e : Option String,
      (pyLower (e.getD "production") = "development" →
        Config.get_config e = Config.DevelopmentConfig) ∧
      (pyLower (e.getD "production") = "testing" →
        Config.get_config e = Config.TestConfig) ∧
      (pyLower (e.getD "production") ≠ "development" →
        pyLower (e.getD "production") ≠ "testing" →
        Config.get_config e = Config.ProductionConfig)) ∧
    Config.get_config none = Config.ProductionConfig ∧
    Config.get_config (some "production") = Config.ProductionConfig ∧
    Config.get_config (some "PRODUCTION") = Config.ProductionConfig ∧
    Config.get_config (some "development") = Config.DevelopmentConfig ∧
    Config.get_config (some "TESTING") = Config.TestConfig := by
  refine ⟨?_, by decide, by decide, by decide, by decide, by decide⟩
  intro e
  refine ⟨fun h => ?_, fun h => ?_, fun h1 h2 => ?_⟩
  · simp [Config.get_config, h]
  · simp [Config.get_config, h]
  · simp [Config.get_config, h1, h2]

/-- C4 witness: the case-analysis part applied at the concrete input
`some "Testing"`, whose lowering is `"testing"`. -/
theorem C4_resolve_profile_witness :
    Config.get_config (some "Testing") = Config.TestConfig :=
  ((C4_resolve_profile.1 (some "Testing")).2.1) (by decide)

/-- C5: each profile overrides Base exactly as specified: Base has level
INFO, total-records cap 10000, pages cap 50 and three allowed origins;
Development sets debug/DEBUG and inherits the limits; Production sets
debug false, INFO, cap 5000 and two origins; Testing sets debug, WARNING,
cap 100 and pages cap 5; hence Development's cap 10000 differs from
Production's 5000. -/
theorem C5_profile_overrides :
    Config.baseConfig.DEBUG = none ∧
    Config.baseConfig.LOG_LEVEL = "INFO" ∧
    Config.baseConfig.MAX_TOTAL_RECORDS = 10000 ∧
    Config.baseConfig.MAX_PAGINATION_PAGES = 50 ∧
    Config.baseConfig.CORS_ORIGINS.length = 3 ∧
    Config.DevelopmentConfig.DEBUG = some true ∧
    Config.DevelopmentConfig.LOG_LEVEL = "DEBUG" ∧
    Config.DevelopmentConfig.MAX_TOTAL_RECORDS =
      Config.baseConfig.MAX_TOTAL_RECORDS ∧
    Config.DevelopmentConfig.MAX_PAGINATION_PAGES =
      Config.baseConfig.MAX_PAGINATION_PAGES ∧
    Config.DevelopmentConfig.CORS_ORIGINS = Config.baseConfig.CORS_ORIGINS ∧
    Config.ProductionConfig.DEBUG = some false ∧
    Config.ProductionConfig.LOG_LEVEL = "INFO" ∧
    Config.ProductionConfig.MAX_TOTAL_RECORDS = 5000 ∧
    Config.ProductionConfig.MAX_PAGINATION_PAGES =
      Config.baseConfig.MAX_PAGINATION_PAGES ∧
    Config.ProductionConfig.CORS_ORIGINS.length = 2 ∧
    Config.TestConfig.DEBUG = some true ∧
    Config.TestConfig.LOG_LEVEL = "WARNING" ∧
    Config.TestConfig.MAX_TOTAL_RECORDS = 100 ∧
    Config.TestConfig.MAX_PAGINATION_PAGES = 5 ∧
    Config.DevelopmentConfig.MAX_TOTAL_RECORDS ≠
      Config.ProductionConfig.MAX_TOTAL_RECORDS := by
  decide

/-- C6: `get_table_config` returns `None` exactly when no entry of the
given mapping carries the requested id; on a hit it returns the matched
entry's fields with `type` the owning source key and `is_legacy` false;
the legacy mapping is empty. -/
theorem C6_get_table_config_lookup (tables : List (String × FreshTable))
    (x : String) :
    (Config.get_table_config tables x = none ↔
      ∀ p ∈ tables, p.2.id ≠ some x) ∧
    (∀ r, Config.get_table_config tables x = some r →
      r.is_legacy = false ∧
      ∃ p ∈ tables, p.2.id = some x ∧ r.type = p.1 ∧ r.id = p.2.id ∧
        r.name = p.2.name ∧ r.date_field = p.2.date_field ∧
        r.sort_direction = p.2.sort_direction) ∧
    Config.LEGACY_TABLES = [] := by
  unfold Config.get_table_config
  cases hf : tables.find? (fun p => p.2.id == some x) with
  | none =>
    have hf' : ∀ p ∈ tables, p.2.id ≠ some x := by
      intro p hp
      have := List.find?_eq_none.mp hf p hp
      simpa using this
    exact ⟨⟨fun _ => hf', fun _ => rfl⟩, fun r hr => by simp at hr, rfl⟩
  | some p =>
    have hmem := List.mem_of_find?_eq_some hf
    have hid : p.2.id = some x := by simpa using List.find?_some hf
    refine ⟨⟨fun h => by simp at h,
             fun hall => absurd hid (hall p hmem)⟩, ?_, rfl⟩
    intro r hr
    injection hr with h
    subst h
    exact ⟨rfl, p, hmem, hid, rfl, rfl, rfl, rfl, rfl⟩

/-- C6 witness: the characterisation applied to the derived mapping of the
concrete client at its ghl table id. -/
theorem C6_get_table_config_lookup_witness :
    (Config.get_table_config (Config.FRESH_TABLES true) "tbl0Er1mMwZO1Pvfj" =
        none ↔
      ∀ p ∈ Config.FRESH_TABLES true, p.2.id ≠ some "tbl0Er1mMwZO1Pvfj") ∧
    (∀ r, Config.get_table_config (Config.FRESH_TABLES true)
        "tbl0Er1mMwZO1Pvfj" = some r →
      r.is_legacy = false ∧
      ∃ p ∈ Config.FRESH_TABLES true, p.2.id = some "tbl0Er1mMwZO1Pvfj" ∧
        r.type = p.1 ∧ r.id = p.2.id ∧ r.name = p.2.name ∧
        r.date_field = p.2.date_field ∧
        r.sort_direction = p.2.sort_direction) ∧
    Config.LEGACY_TABLES = [] :=
  C6_get_table_config_lookup (Config.FRESH_TABLES true) "tbl0Er1mMwZO1Pvfj"

/-- C7: for the concrete configured client the derived mapping has exactly
the keys ghl and google_ads in construction order, pos is not enabled,
and the id sequence of the active mapping (collaborator loaded) is
exactly the two configured ids in that order. -/
theorem C7_all_table_ids :
    Config.get_all_table_ids (Config.FRESH_TABLES true) =
      [some "tbl0Er1mMwZO1Pvfj", some "tblIhvVihVoghHfVa"] ∧
    (get_fresh_tables ClientConfig).map Prod.fst = ["ghl", "google_ads"] ∧
    is_enabled ClientConfig "pos" = false ∧
    Config.FRESH_TABLES true = get_fresh_tables ClientConfig := by
  decide

/-- C9: the frontend summary of the concrete client: the client id is the
lowercased client name with spaces replaced by underscores, the enabled
tabs are the fixed overview entry followed by the enabled sources, the
default tab is overview, and the Airtable base id is the configured one. -/
theorem C9_frontend_summary :
    (get_client_config_for_frontend ClientConfig).client_info.client_id =
      pyReplaceChar ' ' '_' (pyLower ClientConfig.CLIENT_NAME) ∧
    (get_client_config_for_frontend ClientConfig).client_info.client_id =
      "cellular_zone" ∧
    (get_client_config_for_frontend ClientConfig).tab_configuration.enabled_tabs =
      ["overview"] ++ ClientConfig.ENABLED_SOURCES ∧
    (get_client_config_for_frontend ClientConfig).tab_configuration.enabled_tabs =
      ["overview", "ghl", "google_ads"] ∧
    (get_client_config_for_frontend ClientConfig).tab_configuration.default_tab =
      "overview" ∧
    (get_client_config_for_frontend ClientConfig).airtable_configuration.base_id =
      get_base_id ClientConfig ∧
    get_base_id ClientConfig = "app9JgRBZC2GNlaKM" := by
  decide
